import Mathlib

/-!
Shallow embedding of `src/api/x11/xdisplay.rs` (glutin, X11 display
connection setup).  The file models `XConnection::new`, the `Drop`
implementation, and the `XNotSupported` error type, together with the
native calls they perform.  Native calls are recorded in an explicit
trace so that ordering and call-count properties can be stated.

Parts of the repository referenced by `xdisplay.rs` but not present
under `src/` (the `ffi` loader types `Xlib::open`/`Xcursor::open`/…,
`ffi::OpenError`, and the generated `Glx::load_with`/`Egl::load_with`)
are modelled from the specification; their definitions carry a doc
comment starting with `Modelled from the spec:`.
-/

namespace Glutin

/-- Modelled from the spec: `LoaderError` / `ffi::OpenError` (the loader
type is not under `src/`).  "`NotFound` — all candidate names failed to
open; `SymbolNotFound(name)` — opened but missing a required export." -/
inductive OpenError where
  | NotFound : OpenError
  | SymbolNotFound : String → OpenError
deriving DecidableEq, Repr

/-- Opaque mandatory capability bundle for the windowing core (`ffi::Xlib`);
the function pointers themselves are opaque, so the bundle is just a handle. -/
structure Xlib where
  handle : Nat
deriving DecidableEq, Repr

/-- Opaque mandatory capability bundle `ffi::Xcursor`. -/
structure Xcursor where
  handle : Nat
deriving DecidableEq, Repr

/-- Opaque mandatory capability bundle `ffi::Xf86vmode`. -/
structure Xf86vmode where
  handle : Nat
deriving DecidableEq, Repr

/-- Opaque mandatory capability bundle `ffi::XInput2`. -/
structure XInput2 where
  handle : Nat
deriving DecidableEq, Repr

/-- A native display handle (`*mut ffi::Display`); `0` is the null pointer. -/
abbrev Display := Nat

/-- An opaque optional capability bundle (`ffi::glx::Glx` / `Egl`): the table
of resolved symbols, each with its resolved function pointer. -/
abbrev Bundle := List (String × Nat)

/-- The caller-supplied error handler (`XErrorHandler`): an optional opaque
function pointer. -/
abbrev XErrorHandler := Option Nat

/-- The native calls `XConnection::new` and `Drop` can perform, recorded in
an execution trace. -/
inductive NativeCall where
  | xlibOpenCall : NativeCall
  | xcursorOpenCall : NativeCall
  | xf86vmodeOpenCall : NativeCall
  | xinput2OpenCall : NativeCall
  | xInitThreads : NativeCall
  | xSetErrorHandler : NativeCall
  | dlopenCall : String → NativeCall
  | xOpenDisplay : NativeCall
  | xCloseDisplay : Display → NativeCall
deriving DecidableEq, Repr

/-- The environment: outcomes of every native call the code can make.
`dlopen` returns `0` for null (open failed); `xOpenDisplay` is the handle
returned by `XOpenDisplay(null)`, `0` meaning null; `xInitThreadsRet` is
the (ignored) return value of `XInitThreads`. -/
structure Env where
  xlibOpenRes : Except OpenError Xlib
  xcursorOpenRes : Except OpenError Xcursor
  xf86vmodeOpenRes : Except OpenError Xf86vmode
  xinput2OpenRes : Except OpenError XInput2
  dlopen : String → Nat
  dlsym : Nat → String → Option Nat
  xInitThreadsRet : Int
  xOpenDisplay : Display

/-- Modelled from the spec: the spec's all-or-nothing bundle construction
("a capability bundle is fully built only when *every* symbol it declares
resolves; partial bundles are never exposed").  Kept only for comparison
with the code's actual behavior (`loadBundleRaw`): the source's optional
probes do not implement it. -/
def loadBundle (resolve : String → Option Nat) : List String → Option Bundle
  | [] => some []
  | s :: rest =>
    match resolve s, loadBundle resolve rest with
    | some p, some b => some ((s, p) :: b)
    | _, _ => none

/-- `Glx::load_with` / `Egl::load_with` as the source uses them
(`xdisplay.rs` lines 49–53 and 66–70): the struct fields have type
`Option<Glx>` / `Option<Egl>` and the probes store
`Some(load_with(|sym| dlsym(lib, sym)))` unconditionally once the library
opened, so `load_with` returns a plain bundle and can never fail.  The
generated `load_with` body is not under `src/`; it is modelled as one
entry per declared symbol carrying the resolved pointer, or the null
pointer `0` when the resolver fails on that symbol. -/
def loadBundleRaw (resolve : String → Option Nat) (decl : List String) : Bundle :=
  decl.map (fun s => (s, (resolve s).getD 0))

/-- Modelled from the spec: the Dynamic Library Loader `open` operation
(`open(candidates)`), not under `src/`: "tries each candidate name in
order; returns the handle from the first successful open; if every
candidate fails, fails with `NotFound`."  Here `none` stands for the
`NotFound` failure. -/
def openLib (dlopen : String → Nat) : List String → Option Nat
  | [] => none
  | n :: rest =>
    let h := dlopen n
    if h = 0 then openLib dlopen rest else some h

/-- The candidate names the loader actually attempts (in order), stopping
after the first success. -/
def openLibAttempts (dlopen : String → Nat) : List String → List String
  | [] => []
  | n :: rest =>
    if dlopen n = 0 then n :: openLibAttempts dlopen rest else [n]

/-- The optional GLX probe of `XConnection::new` (`xdisplay.rs` lines
40–55): `dlopen("libGL.so.1")`, then `dlopen("libGL.so")` if the first was
null; if both null, `None`, else unconditionally
`Some(Glx::load_with(|sym| dlsym(libglx, sym)))` — once the library is
open the bundle is always stored as present, whatever the symbol
resolution yields.  Returns the probe outcome and the trace of dlopen
calls performed. -/
def glxProbe (glxSymbols : List String) (env : Env) :
    Option Bundle × List NativeCall :=
  let libglx := env.dlopen "libGL.so.1"
  if libglx = 0 then
    let libglx2 := env.dlopen "libGL.so"
    if libglx2 = 0 then
      (none, [NativeCall.dlopenCall "libGL.so.1", NativeCall.dlopenCall "libGL.so"])
    else
      (some (loadBundleRaw (env.dlsym libglx2) glxSymbols),
        [NativeCall.dlopenCall "libGL.so.1", NativeCall.dlopenCall "libGL.so"])
  else
    (some (loadBundleRaw (env.dlsym libglx) glxSymbols),
      [NativeCall.dlopenCall "libGL.so.1"])

/-- The optional EGL probe of `XConnection::new` (`xdisplay.rs` lines
57–72): `dlopen("libEGL.so.1")`, then `dlopen("libEGL.so")` if the first
was null; if both null, `None`, else unconditionally
`Some(Egl::load_with(...))`. -/
def eglProbe (eglSymbols : List String) (env : Env) :
    Option Bundle × List NativeCall :=
  let libegl := env.dlopen "libEGL.so.1"
  if libegl = 0 then
    let libegl2 := env.dlopen "libEGL.so"
    if libegl2 = 0 then
      (none, [NativeCall.dlopenCall "libEGL.so.1", NativeCall.dlopenCall "libEGL.so"])
    else
      (some (loadBundleRaw (env.dlsym libegl2) eglSymbols),
        [NativeCall.dlopenCall "libEGL.so.1", NativeCall.dlopenCall "libEGL.so"])
  else
    (some (loadBundleRaw (env.dlsym libegl) eglSymbols),
      [NativeCall.dlopenCall "libEGL.so.1"])

/-- The error type of `xdisplay.rs` (`XNotSupported`): either a shared
library failed to load, or `XOpenDisplay` failed. -/
inductive XNotSupported where
  | LibraryOpenError : OpenError → XNotSupported
  | XOpenDisplayFailed : XNotSupported
deriving DecidableEq, Repr

/-- `impl From<ffi::OpenError> for XNotSupported` — the conversion the
`try!` macro applies to every loader error. -/
def XNotSupported.fromOpenError (err : OpenError) : XNotSupported :=
  XNotSupported.LibraryOpenError err

/-- `Error::description` for `XNotSupported`. -/
def XNotSupported.description : XNotSupported → String
  | XNotSupported.LibraryOpenError _ => "Failed to load one of xlib's shared libraries"
  | XNotSupported.XOpenDisplayFailed => "Failed to open connection to X server"

/-- `Error::cause` for `XNotSupported`: the underlying loader error for
`LibraryOpenError`, `None` otherwise. -/
def XNotSupported.cause : XNotSupported → Option OpenError
  | XNotSupported.LibraryOpenError err => some err
  | XNotSupported.XOpenDisplayFailed => none

/-- The `XConnection` struct: the four mandatory bundles, the two optional
bundles, and the native display handle (field order as in the source). -/
structure XConnection where
  xlib : Xlib
  xf86vmode : Xf86vmode
  xcursor : Xcursor
  xinput2 : XInput2
  glx : Option Bundle
  egl : Option Bundle
  display : Display
deriving DecidableEq, Repr

/-- `XConnection::new` (`xdisplay.rs` lines 29–92), with the trace of the
native calls it performs.  The four mandatory bundles are opened in source
order (`Xlib`, `Xcursor`, `Xf86vmode`, `XInput2`), each failure
short-circuiting through `try!` (hence `XNotSupported.fromOpenError`);
then `XInitThreads` (return value unused) and `XSetErrorHandler`; then the
two optional probes; then `XOpenDisplay`, whose null result yields
`XOpenDisplayFailed`, and otherwise the `XConnection` value. -/
def XConnection.new (glxSymbols eglSymbols : List String) (env : Env)
    (error_handler : XErrorHandler) :
    Except XNotSupported XConnection × List NativeCall :=
  match env.xlibOpenRes with
  | Except.error e => (Except.error (XNotSupported.fromOpenError e), [NativeCall.xlibOpenCall])
  | Except.ok xlib =>
    match env.xcursorOpenRes with
    | Except.error e =>
        (Except.error (XNotSupported.fromOpenError e),
          [NativeCall.xlibOpenCall, NativeCall.xcursorOpenCall])
    | Except.ok xcursor =>
      match env.xf86vmodeOpenRes with
      | Except.error e =>
          (Except.error (XNotSupported.fromOpenError e),
            [NativeCall.xlibOpenCall, NativeCall.xcursorOpenCall,
              NativeCall.xf86vmodeOpenCall])
      | Except.ok xf86vmode =>
        match env.xinput2OpenRes with
        | Except.error e =>
            (Except.error (XNotSupported.fromOpenError e),
              [NativeCall.xlibOpenCall, NativeCall.xcursorOpenCall,
                NativeCall.xf86vmodeOpenCall, NativeCall.xinput2OpenCall])
        | Except.ok xinput2 =>
          let glxRes := glxProbe glxSymbols env
          let eglRes := eglProbe eglSymbols env
          let preTrace :=
            [NativeCall.xlibOpenCall, NativeCall.xcursorOpenCall,
              NativeCall.xf86vmodeOpenCall, NativeCall.xinput2OpenCall,
              NativeCall.xInitThreads, NativeCall.xSetErrorHandler] ++
              glxRes.2 ++ eglRes.2
          let display := env.xOpenDisplay
          if display = 0 then
            (Except.error XNotSupported.XOpenDisplayFailed,
              preTrace ++ [NativeCall.xOpenDisplay])
          else
            (Except.ok
              { xlib := xlib, xf86vmode := xf86vmode, xcursor := xcursor,
                xinput2 := xinput2, glx := glxRes.1, egl := eglRes.1,
                display := display },
              preTrace ++ [NativeCall.xOpenDisplay])

/-- The result component of `XConnection::new`. -/
def XConnection.newResult (glxSymbols eglSymbols : List String) (env : Env)
    (error_handler : XErrorHandler) : Except XNotSupported XConnection :=
  (XConnection.new glxSymbols eglSymbols env error_handler).1

/-- The native-call trace of `XConnection::new`. -/
def XConnection.newTrace (glxSymbols eglSymbols : List String) (env : Env)
    (error_handler : XErrorHandler) : List NativeCall :=
  (XConnection.new glxSymbols eglSymbols env error_handler).2

/-- `impl Drop for XConnection` (`xdisplay.rs` lines 94–99): the trace of
native calls performed when the value is dropped — a single
`XCloseDisplay(self.display)`. -/
def XConnection.dropTrace (conn : XConnection) : List NativeCall :=
  [NativeCall.xCloseDisplay conn.display]

/-- The complete native-call trace of one `XConnection` lifetime: the
construction trace, followed — when construction succeeded, so that an
owning value exists — by the drop trace of that value.  Rust runs `drop`
exactly once per owned value, so the drop trace is appended exactly once. -/
def sessionTrace (glxSymbols eglSymbols : List String) (env : Env)
    (error_handler : XErrorHandler) : List NativeCall :=
  match XConnection.new glxSymbols eglSymbols env error_handler with
  | (Except.ok conn, tr) => tr ++ conn.dropTrace
  | (Except.error _, tr) => tr

/-! Helper lemmas -/

theorem glxProbe_trace_cases (gs : List String) (env : Env) :
    (glxProbe gs env).2 = [NativeCall.dlopenCall "libGL.so.1"] ∨
    (glxProbe gs env).2 = [NativeCall.dlopenCall "libGL.so.1",
      NativeCall.dlopenCall "libGL.so"] := by
  unfold glxProbe
  by_cases h1 : env.dlopen "libGL.so.1" = 0
  · by_cases h2 : env.dlopen "libGL.so" = 0 <;> simp [h1, h2]
  · simp [h1]

theorem eglProbe_trace_cases (es : List String) (env : Env) :
    (eglProbe es env).2 = [NativeCall.dlopenCall "libEGL.so.1"] ∨
    (eglProbe es env).2 = [NativeCall.dlopenCall "libEGL.so.1",
      NativeCall.dlopenCall "libEGL.so"] := by
  unfold eglProbe
  by_cases h1 : env.dlopen "libEGL.so.1" = 0
  · by_cases h2 : env.dlopen "libEGL.so" = 0 <;> simp [h1, h2]
  · simp [h1]

theorem glxProbe_trace_dlopen (gs : List String) (env : Env) :
    ∀ c ∈ (glxProbe gs env).2, ∃ n, c = NativeCall.dlopenCall n := by
  rcases glxProbe_trace_cases gs env with h | h <;> rw [h] <;> intro c hc <;>
    simp at hc
  · exact ⟨_, hc⟩
  · rcases hc with hc | hc <;> exact ⟨_, hc⟩

theorem eglProbe_trace_dlopen (es : List String) (env : Env) :
    ∀ c ∈ (eglProbe es env).2, ∃ n, c = NativeCall.dlopenCall n := by
  rcases eglProbe_trace_cases es env with h | h <;> rw [h] <;> intro c hc <;>
    simp at hc
  · exact ⟨_, hc⟩
  · rcases hc with hc | hc <;> exact ⟨_, hc⟩

theorem count_eq_zero_of_dlopen (tr : List NativeCall)
    (hdl : ∀ c ∈ tr, ∃ n, c = NativeCall.dlopenCall n) (c : NativeCall)
    (hc : ∀ n, c ≠ NativeCall.dlopenCall n) : tr.count c = 0 :=
  List.count_eq_zero.mpr (fun hmem => by
    rcases hdl c hmem with ⟨n, hn⟩
    exact hc n hn)

/-- When the four mandatory opens succeed, `XConnection.new` reduces to a
fixed trace shape and a result decided by `XOpenDisplay` alone. -/
theorem new_ok_shape (gs es : List String) (env : Env) (eh : XErrorHandler)
    (xlib : Xlib) (xcursor : Xcursor) (xf86vmode : Xf86vmode) (xinput2 : XInput2)
    (hx : env.xlibOpenRes = Except.ok xlib)
    (hc : env.xcursorOpenRes = Except.ok xcursor)
    (hf : env.xf86vmodeOpenRes = Except.ok xf86vmode)
    (hi : env.xinput2OpenRes = Except.ok xinput2) :
    XConnection.new gs es env eh =
      ((if env.xOpenDisplay = 0 then Except.error XNotSupported.XOpenDisplayFailed
        else Except.ok { xlib := xlib, xf86vmode := xf86vmode, xcursor := xcursor,
                         xinput2 := xinput2, glx := (glxProbe gs env).1,
                         egl := (eglProbe es env).1, display := env.xOpenDisplay }),
       [NativeCall.xlibOpenCall, NativeCall.xcursorOpenCall, NativeCall.xf86vmodeOpenCall,
        NativeCall.xinput2OpenCall, NativeCall.xInitThreads, NativeCall.xSetErrorHandler] ++
        (glxProbe gs env).2 ++ (eglProbe es env).2 ++ [NativeCall.xOpenDisplay]) := by
  unfold XConnection.new
  rw [hx, hc, hf, hi]
  by_cases hd : env.xOpenDisplay = 0 <;> simp [hd]

/-- When some mandatory open fails, `XConnection.new` returns a wrapped
loader error and the trace holds only mandatory-open events. -/
theorem new_mand_fail_shape (gs es : List String) (env : Env) (eh : XErrorHandler)
    (h : env.xlibOpenRes.isOk = false ∨ env.xcursorOpenRes.isOk = false ∨
      env.xf86vmodeOpenRes.isOk = false ∨ env.xinput2OpenRes.isOk = false) :
    ∃ e, XConnection.newResult gs es env eh =
        Except.error (XNotSupported.LibraryOpenError e) ∧
      ∀ c ∈ XConnection.newTrace gs es env eh,
        c = NativeCall.xlibOpenCall ∨ c = NativeCall.xcursorOpenCall ∨
        c = NativeCall.xf86vmodeOpenCall ∨ c = NativeCall.xinput2OpenCall := by
  unfold XConnection.newResult XConnection.newTrace
  rcases hx : env.xlibOpenRes with e | xlib
  · exact ⟨e, by simp [XConnection.new, hx, XNotSupported.fromOpenError],
      by simp [XConnection.new, hx]⟩
  · rcases hc : env.xcursorOpenRes with e | xcursor
    · exact ⟨e, by simp [XConnection.new, hx, hc, XNotSupported.fromOpenError],
        by simp [XConnection.new, hx, hc]⟩
    · rcases hf : env.xf86vmodeOpenRes with e | xf86vmode
      · exact ⟨e, by simp [XConnection.new, hx, hc, hf, XNotSupported.fromOpenError],
          by simp [XConnection.new, hx, hc, hf]⟩
      · rcases hi : env.xinput2OpenRes with e | xinput2
        · exact ⟨e, by simp [XConnection.new, hx, hc, hf, hi, XNotSupported.fromOpenError],
            by simp [XConnection.new, hx, hc, hf, hi]⟩
        · rw [hx, hc, hf, hi] at h
          simp [Except.isOk, Except.toBool] at h

/-- A successful construction (`XConnection.newResult = ok conn`) forces
every mandatory open to have succeeded, `XOpenDisplay` to have returned a
non-null handle, and `conn` to be the record built by `new`. -/
theorem new_ok_elim (gs es : List String) (env : Env) (eh : XErrorHandler)
    (conn : XConnection)
    (h : XConnection.newResult gs es env eh = Except.ok conn) :
    ∃ xlib xcursor xf86vmode xinput2,
      env.xlibOpenRes = Except.ok xlib ∧ env.xcursorOpenRes = Except.ok xcursor ∧
      env.xf86vmodeOpenRes = Except.ok xf86vmode ∧
      env.xinput2OpenRes = Except.ok xinput2 ∧ env.xOpenDisplay ≠ 0 ∧
      conn = { xlib := xlib, xf86vmode := xf86vmode, xcursor := xcursor,
               xinput2 := xinput2, glx := (glxProbe gs env).1,
               egl := (eglProbe es env).1, display := env.xOpenDisplay } := by
  rcases hx : env.xlibOpenRes with e | xlib
  · rw [XConnection.newResult] at h
    simp [XConnection.new, hx] at h
  rcases hc : env.xcursorOpenRes with e | xcursor
  · rw [XConnection.newResult] at h
    simp [XConnection.new, hx, hc] at h
  rcases hf : env.xf86vmodeOpenRes with e | xf86vmode
  · rw [XConnection.newResult] at h
    simp [XConnection.new, hx, hc, hf] at h
  rcases hi : env.xinput2OpenRes with e | xinput2
  · rw [XConnection.newResult] at h
    simp [XConnection.new, hx, hc, hf, hi] at h
  have hs := new_ok_shape gs es env eh xlib xcursor xf86vmode xinput2 hx hc hf hi
  rw [XConnection.newResult, hs] at h
  by_cases hd : env.xOpenDisplay = 0
  · simp [hd] at h
  · simp only [hd, if_neg, ite_false] at h
    refine ⟨xlib, xcursor, xf86vmode, xinput2, rfl, rfl, rfl, rfl, hd, ?_⟩
    exact (Except.ok.injEq _ _ ▸ h).symm

/-! Claim theorems -/

/-- A concrete environment in which all mandatory opens succeed, both
optional probes fail (dlopen always null), and the display opens. -/
def envAllOk : Env :=
  { xlibOpenRes := Except.ok ⟨1⟩, xcursorOpenRes := Except.ok ⟨2⟩,
    xf86vmodeOpenRes := Except.ok ⟨3⟩, xinput2OpenRes := Except.ok ⟨4⟩,
    dlopen := fun _ => 0, dlsym := fun _ _ => none,
    xInitThreadsRet := 0, xOpenDisplay := 7 }

/-- A concrete environment in which the first mandatory open fails. -/
def envXlibFails : Env :=
  { envAllOk with xlibOpenRes := Except.error OpenError.NotFound }

/-- A concrete environment in which `XOpenDisplay` returns null. -/
def envDisplayNull : Env :=
  { envAllOk with xOpenDisplay := 0 }

/-- The `XConnection` value `new` builds in `envAllOk`. -/
def connAllOk : XConnection :=
  { xlib := ⟨1⟩, xf86vmode := ⟨3⟩, xcursor := ⟨2⟩, xinput2 := ⟨4⟩,
    glx := none, egl := none, display := 7 }

/-- C1: for every error handler, if opening any of the four mandatory
capability bundles (Xlib, Xcursor, Xf86vmode, XInput2) fails, then
`XConnection::new` returns `Err(XNotSupported::LibraryOpenError e)`
carrying the underlying loader error and performs no further native
calls — in particular the trace holds no `XInitThreads`, no
`XSetErrorHandler`, no `XOpenDisplay` and no `dlopen` — and no
`XConnection` value is produced. -/
theorem new_mandatory_failure_short_circuits
    (gs es : List String) (env : Env) (eh : XErrorHandler)
    (h : env.xlibOpenRes.isOk = false ∨ env.xcursorOpenRes.isOk = false ∨
      env.xf86vmodeOpenRes.isOk = false ∨ env.xinput2OpenRes.isOk = false) :
    ∃ e, XConnection.newResult gs es env eh =
        Except.error (XNotSupported.LibraryOpenError e) ∧
      (XConnection.newTrace gs es env eh).count NativeCall.xInitThreads = 0 ∧
      (XConnection.newTrace gs es env eh).count NativeCall.xSetErrorHandler = 0 ∧
      (XConnection.newTrace gs es env eh).count NativeCall.xOpenDisplay = 0 ∧
      (∀ n, (XConnection.newTrace gs es env eh).count (NativeCall.dlopenCall n) = 0) ∧
      ∀ conn, XConnection.newResult gs es env eh ≠ Except.ok conn := by
  obtain ⟨e, he, hmem⟩ := new_mand_fail_shape gs es env eh h
  refine ⟨e, he, ?_, ?_, ?_, ?_, ?_⟩
  · exact List.count_eq_zero.mpr
      (fun hm => by rcases hmem _ hm with h1 | h1 | h1 | h1 <;> simp at h1)
  · exact List.count_eq_zero.mpr
      (fun hm => by rcases hmem _ hm with h1 | h1 | h1 | h1 <;> simp at h1)
  · exact List.count_eq_zero.mpr
      (fun hm => by rcases hmem _ hm with h1 | h1 | h1 | h1 <;> simp at h1)
  · exact fun n => List.count_eq_zero.mpr
      (fun hm => by rcases hmem _ hm with h1 | h1 | h1 | h1 <;> simp at h1)
  · intro conn hcon
    rw [he] at hcon
    exact absurd hcon (by simp)

/-- Witness for C1: concrete run in which `Xlib::open` fails. -/
theorem new_mandatory_failure_short_circuits_witness :
    ∃ e, XConnection.newResult [] [] envXlibFails none =
        Except.error (XNotSupported.LibraryOpenError e) ∧
      (XConnection.newTrace [] [] envXlibFails none).count NativeCall.xInitThreads = 0 ∧
      (XConnection.newTrace [] [] envXlibFails none).count NativeCall.xSetErrorHandler = 0 ∧
      (XConnection.newTrace [] [] envXlibFails none).count NativeCall.xOpenDisplay = 0 ∧
      (∀ n, (XConnection.newTrace [] [] envXlibFails none).count (NativeCall.dlopenCall n) = 0) ∧
      ∀ conn, XConnection.newResult [] [] envXlibFails none ≠ Except.ok conn :=
  new_mandatory_failure_short_circuits [] [] envXlibFails none (Or.inl rfl)

/-- The construction trace never contains a close event. -/
theorem newTrace_no_close (gs es : List String) (env : Env) (eh : XErrorHandler)
    (d : Display) :
    (XConnection.newTrace gs es env eh).count (NativeCall.xCloseDisplay d) = 0 := by
  rcases hx : env.xlibOpenRes with e | xlib
  · simp [XConnection.newTrace, XConnection.new, hx]
  rcases hc : env.xcursorOpenRes with e | xcursor
  · simp [XConnection.newTrace, XConnection.new, hx, hc]
  rcases hf : env.xf86vmodeOpenRes with e | xf86vmode
  · simp [XConnection.newTrace, XConnection.new, hx, hc, hf]
  rcases hi : env.xinput2OpenRes with e | xinput2
  · simp [XConnection.newTrace, XConnection.new, hx, hc, hf, hi]
  have hs := new_ok_shape gs es env eh xlib xcursor xf86vmode xinput2 hx hc hf hi
  rw [XConnection.newTrace, hs]
  simp only [List.count_append]
  have hg : (glxProbe gs env).2.count (NativeCall.xCloseDisplay d) = 0 :=
    count_eq_zero_of_dlopen _ (glxProbe_trace_dlopen gs env) _ (by simp)
  have hegl : (eglProbe es env).2.count (NativeCall.xCloseDisplay d) = 0 :=
    count_eq_zero_of_dlopen _ (eglProbe_trace_dlopen es env) _ (by simp)
  rw [hg, hegl]
  simp [List.count_eq_zero]

/-- C2: for every successfully constructed `XConnection`, destruction
(`Drop`) invokes `XCloseDisplay` on the stored display handle exactly
once: the drop trace is exactly one close of `conn.display`, construction
itself performs no close, and over the whole session (construction
followed by the single drop Rust performs on the owned value) the handle
is closed exactly once and no other handle is ever closed. -/
theorem drop_closes_display_exactly_once
    (gs es : List String) (env : Env) (eh : XErrorHandler) (conn : XConnection)
    (h : XConnection.newResult gs es env eh = Except.ok conn) :
    XConnection.dropTrace conn = [NativeCall.xCloseDisplay conn.display] ∧
    (sessionTrace gs es env eh).count (NativeCall.xCloseDisplay conn.display) = 1 ∧
    (∀ d, (XConnection.newTrace gs es env eh).count (NativeCall.xCloseDisplay d) = 0) ∧
    (∀ d, d ≠ conn.display →
      (sessionTrace gs es env eh).count (NativeCall.xCloseDisplay d) = 0) := by
  have hpair : XConnection.new gs es env eh =
      (Except.ok conn, XConnection.newTrace gs es env eh) := by
    rw [XConnection.newResult] at h
    exact Prod.ext_iff.mpr ⟨h, rfl⟩
  have hsession : sessionTrace gs es env eh =
      XConnection.newTrace gs es env eh ++ conn.dropTrace := by
    rw [sessionTrace, hpair]
  refine ⟨rfl, ?_, fun d => newTrace_no_close gs es env eh d, ?_⟩
  · rw [hsession, List.count_append, newTrace_no_close]
    simp [XConnection.dropTrace]
  · intro d hd
    rw [hsession, List.count_append, newTrace_no_close]
    simp [XConnection.dropTrace, List.count_eq_zero]
    intro hcontra
    exact hd hcontra

/-- Witness for C2: concrete successful run; its connection is closed
exactly once. -/
theorem drop_closes_display_exactly_once_witness :
    XConnection.dropTrace connAllOk = [NativeCall.xCloseDisplay connAllOk.display] ∧
    (sessionTrace [] [] envAllOk none).count
      (NativeCall.xCloseDisplay connAllOk.display) = 1 ∧
    (∀ d, (XConnection.newTrace [] [] envAllOk none).count
      (NativeCall.xCloseDisplay d) = 0) ∧
    (∀ d, d ≠ connAllOk.display →
      (sessionTrace [] [] envAllOk none).count (NativeCall.xCloseDisplay d) = 0) :=
  drop_closes_display_exactly_once [] [] envAllOk none connAllOk (by rfl)

/-- C3: for every error handler, if all four mandatory bundles load but
`XOpenDisplay` returns null, `XConnection::new` returns
`Err(XNotSupported::XOpenDisplayFailed)`, and the failing `XOpenDisplay`
call is strictly preceded by a trace in which `XInitThreads` and
`XSetErrorHandler` have each been invoked exactly once. -/
theorem new_open_display_failure_after_init
    (gs es : List String) (env : Env) (eh : XErrorHandler)
    (xlib : Xlib) (xcursor : Xcursor) (xf86vmode : Xf86vmode) (xinput2 : XInput2)
    (hx : env.xlibOpenRes = Except.ok xlib)
    (hc : env.xcursorOpenRes = Except.ok xcursor)
    (hf : env.xf86vmodeOpenRes = Except.ok xf86vmode)
    (hi : env.xinput2OpenRes = Except.ok xinput2)
    (hd : env.xOpenDisplay = 0) :
    XConnection.newResult gs es env eh =
      Except.error XNotSupported.XOpenDisplayFailed ∧
    ∃ pre, XConnection.newTrace gs es env eh = pre ++ [NativeCall.xOpenDisplay] ∧
      pre.count NativeCall.xInitThreads = 1 ∧
      pre.count NativeCall.xSetErrorHandler = 1 ∧
      pre.count NativeCall.xOpenDisplay = 0 := by
  have hs := new_ok_shape gs es env eh xlib xcursor xf86vmode xinput2 hx hc hf hi
  have hginit : (glxProbe gs env).2.count NativeCall.xInitThreads = 0 :=
    count_eq_zero_of_dlopen _ (glxProbe_trace_dlopen gs env) _ (by simp)
  have heinit : (eglProbe es env).2.count NativeCall.xInitThreads = 0 :=
    count_eq_zero_of_dlopen _ (eglProbe_trace_dlopen es env) _ (by simp)
  have hgset : (glxProbe gs env).2.count NativeCall.xSetErrorHandler = 0 :=
    count_eq_zero_of_dlopen _ (glxProbe_trace_dlopen gs env) _ (by simp)
  have heset : (eglProbe es env).2.count NativeCall.xSetErrorHandler = 0 :=
    count_eq_zero_of_dlopen _ (eglProbe_trace_dlopen es env) _ (by simp)
  have hgopen : (glxProbe gs env).2.count NativeCall.xOpenDisplay = 0 :=
    count_eq_zero_of_dlopen _ (glxProbe_trace_dlopen gs env) _ (by simp)
  have heopen : (eglProbe es env).2.count NativeCall.xOpenDisplay = 0 :=
    count_eq_zero_of_dlopen _ (eglProbe_trace_dlopen es env) _ (by simp)
  constructor
  · rw [XConnection.newResult, hs]
    simp [hd]
  · refine ⟨[NativeCall.xlibOpenCall, NativeCall.xcursorOpenCall,
      NativeCall.xf86vmodeOpenCall, NativeCall.xinput2OpenCall,
      NativeCall.xInitThreads, NativeCall.xSetErrorHandler] ++
      (glxProbe gs env).2 ++ (eglProbe es env).2, ?_, ?_, ?_, ?_⟩
    · rw [XConnection.newTrace, hs]
    · simp only [List.count_append, hginit, heinit]
      decide
    · simp only [List.count_append, hgset, heset]
      decide
    · simp only [List.count_append, hgopen, heopen]
      decide

/-- Witness for C3: concrete run in which the display open returns null. -/
theorem new_open_display_failure_after_init_witness :
    XConnection.newResult [] [] envDisplayNull none =
      Except.error XNotSupported.XOpenDisplayFailed ∧
    ∃ pre, XConnection.newTrace [] [] envDisplayNull none =
        pre ++ [NativeCall.xOpenDisplay] ∧
      pre.count NativeCall.xInitThreads = 1 ∧
      pre.count NativeCall.xSetErrorHandler = 1 ∧
      pre.count NativeCall.xOpenDisplay = 0 :=
  new_open_display_failure_after_init [] [] envDisplayNull none
    ⟨1⟩ ⟨2⟩ ⟨3⟩ ⟨4⟩ rfl rfl rfl rfl rfl

/-- A raw bundle records the null pointer for every declared symbol the
resolver fails on. -/
theorem loadBundleRaw_null_of_missing (resolve : String → Option Nat)
    (decl : List String) (s : String) (hs : s ∈ decl) (hr : resolve s = none) :
    (s, 0) ∈ loadBundleRaw resolve decl := by
  exact List.mem_map.mpr ⟨s, hs, by simp [hr]⟩

/-- The GLX probe of `new` is the loader `open` on the fixed candidate
list `["libGL.so.1", "libGL.so"]`, with the bundle built (unconditionally)
from the handle that opened; its dlopen trace is exactly the attempted
names. -/
theorem glxProbe_eq_openLib (gs : List String) (env : Env) :
    (glxProbe gs env).1 =
      (openLib env.dlopen ["libGL.so.1", "libGL.so"]).map
        (fun h => loadBundleRaw (env.dlsym h) gs) ∧
    (glxProbe gs env).2 =
      (openLibAttempts env.dlopen ["libGL.so.1", "libGL.so"]).map
        NativeCall.dlopenCall := by
  by_cases h1 : env.dlopen "libGL.so.1" = 0
  · by_cases h2 : env.dlopen "libGL.so" = 0 <;>
      simp [glxProbe, openLib, openLibAttempts, h1, h2]
  · simp [glxProbe, openLib, openLibAttempts, h1]

/-- The EGL probe of `new` is the loader `open` on the fixed candidate
list `["libEGL.so.1", "libEGL.so"]`, with the bundle built
(unconditionally) from the handle that opened. -/
theorem eglProbe_eq_openLib (es : List String) (env : Env) :
    (eglProbe es env).1 =
      (openLib env.dlopen ["libEGL.so.1", "libEGL.so"]).map
        (fun h => loadBundleRaw (env.dlsym h) es) ∧
    (eglProbe es env).2 =
      (openLibAttempts env.dlopen ["libEGL.so.1", "libEGL.so"]).map
        NativeCall.dlopenCall := by
  by_cases h1 : env.dlopen "libEGL.so.1" = 0
  · by_cases h2 : env.dlopen "libEGL.so" = 0 <;>
      simp [eglProbe, openLib, openLibAttempts, h1, h2]
  · simp [eglProbe, openLib, openLibAttempts, h1]

/-- Errors of `new` come only from a mandatory-open failure or a null
display: never from the optional probes. -/
theorem new_error_sources (gs es : List String) (env : Env) (eh : XErrorHandler)
    (e : XNotSupported)
    (h : XConnection.newResult gs es env eh = Except.error e) :
    env.xlibOpenRes.isOk = false ∨ env.xcursorOpenRes.isOk = false ∨
    env.xf86vmodeOpenRes.isOk = false ∨ env.xinput2OpenRes.isOk = false ∨
    env.xOpenDisplay = 0 := by
  rcases hx : env.xlibOpenRes with ex | xlib
  · simp [Except.isOk, Except.toBool, hx]
  rcases hc : env.xcursorOpenRes with ex | xcursor
  · simp [Except.isOk, Except.toBool, hc]
  rcases hf : env.xf86vmodeOpenRes with ex | xf86vmode
  · simp [Except.isOk, Except.toBool, hf]
  rcases hi : env.xinput2OpenRes with ex | xinput2
  · simp [Except.isOk, Except.toBool, hi]
  have hs := new_ok_shape gs es env eh xlib xcursor xf86vmode xinput2 hx hc hf hi
  rw [XConnection.newResult, hs] at h
  by_cases hd : env.xOpenDisplay = 0
  · exact Or.inr (Or.inr (Or.inr (Or.inr hd)))
  · simp [hd] at h

/-- A concrete environment in which `libGL.so.1` opens (handle 5) but no
symbol resolves. -/
def envGlxOpens : Env :=
  { envAllOk with dlopen := fun n => if n = "libGL.so.1" then 5 else 0 }

/-- C4 counterexample: with the GLX library open (handle 5) and the single
declared symbol failing to resolve, the probe still records the bundle as
present — `some` of a partially-resolved table carrying the null pointer —
not as absent, while the spec's all-or-nothing construction (`loadBundle`)
would have failed; so a symbol-resolution failure while the optional
library is open does not record the bundle as `None`. -/
theorem optional_bundle_partial_present_counterexample :
    envGlxOpens.dlopen "libGL.so.1" = 5 ∧
    envGlxOpens.dlsym 5 "glXChooseVisual" = none ∧
    (glxProbe ["glXChooseVisual"] envGlxOpens).1 =
      some [("glXChooseVisual", 0)] ∧
    (glxProbe ["glXChooseVisual"] envGlxOpens).1 ≠ none ∧
    loadBundle (envGlxOpens.dlsym 5) ["glXChooseVisual"] = none :=
  ⟨rfl, rfl, rfl, by simp [glxProbe, envGlxOpens, envAllOk, loadBundleRaw], rfl⟩

/-- C4 (amended): during optional-bundle loading, the bundle is recorded
as absent (`None`) exactly when no candidate library opens; once a
candidate opens, the bundle is stored as present (`Some`) unconditionally
— a symbol-resolution failure yields a present, partially-resolved bundle
whose failing symbols carry null pointers, never an absent bundle; and no
fatal error can arise from the optional probes (every error of `new`
stems from a mandatory open failure or a null display). -/
theorem optional_bundle_present_iff_open (gs es : List String) (env : Env) :
    (∀ h, openLib env.dlopen ["libGL.so.1", "libGL.so"] = some h →
      (glxProbe gs env).1 = some (loadBundleRaw (env.dlsym h) gs)) ∧
    (openLib env.dlopen ["libGL.so.1", "libGL.so"] = none →
      (glxProbe gs env).1 = none) ∧
    (∀ h, openLib env.dlopen ["libEGL.so.1", "libEGL.so"] = some h →
      (eglProbe es env).1 = some (loadBundleRaw (env.dlsym h) es)) ∧
    (openLib env.dlopen ["libEGL.so.1", "libEGL.so"] = none →
      (eglProbe es env).1 = none) ∧
    (∀ (resolve : String → Option Nat) (decl : List String) s, s ∈ decl →
      resolve s = none → (s, 0) ∈ loadBundleRaw resolve decl) ∧
    (∀ eh e, XConnection.newResult gs es env eh = Except.error e →
      env.xlibOpenRes.isOk = false ∨ env.xcursorOpenRes.isOk = false ∨
      env.xf86vmodeOpenRes.isOk = false ∨ env.xinput2OpenRes.isOk = false ∨
      env.xOpenDisplay = 0) := by
  refine ⟨?_, ?_, ?_, ?_,
    fun resolve decl s hs hr => loadBundleRaw_null_of_missing resolve decl s hs hr,
    fun eh e h => new_error_sources gs es env eh e h⟩
  · intro h hopen
    have hfst := (glxProbe_eq_openLib gs env).1
    rw [hopen] at hfst
    simpa using hfst
  · intro hopen
    have hfst := (glxProbe_eq_openLib gs env).1
    rw [hopen] at hfst
    simpa using hfst
  · intro h hopen
    have hfst := (eglProbe_eq_openLib es env).1
    rw [hopen] at hfst
    simpa using hfst
  · intro hopen
    have hfst := (eglProbe_eq_openLib es env).1
    rw [hopen] at hfst
    simpa using hfst

/-- Witness for amended C4: with the GLX library open (handle 5) and no
symbol resolving, the bundle is recorded as present, holding the null
pointer for the declared symbol. -/
theorem optional_bundle_present_iff_open_witness :
    openLib envGlxOpens.dlopen ["libGL.so.1", "libGL.so"] = some 5 ∧
    (glxProbe ["glXChooseVisual"] envGlxOpens).1 =
      some (loadBundleRaw (envGlxOpens.dlsym 5) ["glXChooseVisual"]) :=
  ⟨by rfl,
   (optional_bundle_present_iff_open ["glXChooseVisual"] [] envGlxOpens).1 5 (by rfl)⟩

/-- C5: for every error handler, failure to open either or both optional
libraries never makes `XConnection::new` fail: with the mandatory path
succeeding and every optional dlopen returning null, `new` returns `Ok`
with `glx = None` and `egl = None`; and in general every error of `new`
stems from a mandatory open failure or a null display, never from the
optional probes. -/
theorem optional_open_failure_never_fatal
    (gs es : List String) (env : Env) (eh : XErrorHandler)
    (xlib : Xlib) (xcursor : Xcursor) (xf86vmode : Xf86vmode) (xinput2 : XInput2)
    (hx : env.xlibOpenRes = Except.ok xlib)
    (hc : env.xcursorOpenRes = Except.ok xcursor)
    (hf : env.xf86vmodeOpenRes = Except.ok xf86vmode)
    (hi : env.xinput2OpenRes = Except.ok xinput2)
    (hg1 : env.dlopen "libGL.so.1" = 0) (hg2 : env.dlopen "libGL.so" = 0)
    (he1 : env.dlopen "libEGL.so.1" = 0) (he2 : env.dlopen "libEGL.so" = 0)
    (hd : env.xOpenDisplay ≠ 0) :
    (∃ conn, XConnection.newResult gs es env eh = Except.ok conn ∧
      conn.glx = none ∧ conn.egl = none) ∧
    ∀ gsx esx (envx : Env) ehx e,
      XConnection.newResult gsx esx envx ehx = Except.error e →
      envx.xlibOpenRes.isOk = false ∨ envx.xcursorOpenRes.isOk = false ∨
      envx.xf86vmodeOpenRes.isOk = false ∨ envx.xinput2OpenRes.isOk = false ∨
      envx.xOpenDisplay = 0 := by
  refine ⟨?_, fun gsx esx envx ehx e h => new_error_sources gsx esx envx ehx e h⟩
  have hs := new_ok_shape gs es env eh xlib xcursor xf86vmode xinput2 hx hc hf hi
  have hglx : (glxProbe gs env).1 = none := by
    simp [glxProbe, hg1, hg2]
  have hegl : (eglProbe es env).1 = none := by
    simp [eglProbe, he1, he2]
  refine ⟨{ xlib := xlib, xf86vmode := xf86vmode, xcursor := xcursor,
            xinput2 := xinput2, glx := none, egl := none,
            display := env.xOpenDisplay }, ?_, rfl, rfl⟩
  rw [XConnection.newResult, hs]
  simp [hd, hglx, hegl]

/-- Witness for C5: concrete run in which every optional dlopen fails and
the connection is still built, with both optional bundles absent. -/
theorem optional_open_failure_never_fatal_witness :
    ∃ conn, XConnection.newResult [] [] envAllOk none = Except.ok conn ∧
      conn.glx = none ∧ conn.egl = none :=
  (optional_open_failure_never_fatal [] [] envAllOk none
    ⟨1⟩ ⟨2⟩ ⟨3⟩ ⟨4⟩ rfl rfl rfl rfl rfl rfl rfl rfl (by decide)).1

/-- C6: the library open operation tries the candidate names in their
fixed listed order, returns the handle of the first candidate that opens
and attempts no further candidates after a success; only if every
candidate fails does the open as a whole fail (`none`).  The source's GLX
and EGL probes implement exactly this search on the fixed lists
`["libGL.so.1", "libGL.so"]` and `["libEGL.so.1", "libEGL.so"]`
(versioned name before unversioned), as witnessed by their dlopen
traces. -/
theorem open_tries_candidates_in_order :
    (∀ (dlopen : String → Nat) (l1 : List String) (n : String) (l2 : List String),
      (∀ m ∈ l1, dlopen m = 0) → dlopen n ≠ 0 →
      openLib dlopen (l1 ++ n :: l2) = some (dlopen n) ∧
      openLibAttempts dlopen (l1 ++ n :: l2) = l1 ++ [n]) ∧
    (∀ (dlopen : String → Nat) (l : List String),
      (∀ m ∈ l, dlopen m = 0) ↔ openLib dlopen l = none) ∧
    (∀ gs (env : Env),
      (glxProbe gs env).1 =
        (openLib env.dlopen ["libGL.so.1", "libGL.so"]).map
          (fun h => loadBundleRaw (env.dlsym h) gs) ∧
      (glxProbe gs env).2 =
        (openLibAttempts env.dlopen ["libGL.so.1", "libGL.so"]).map
          NativeCall.dlopenCall) ∧
    (∀ es (env : Env),
      (eglProbe es env).1 =
        (openLib env.dlopen ["libEGL.so.1", "libEGL.so"]).map
          (fun h => loadBundleRaw (env.dlsym h) es) ∧
      (eglProbe es env).2 =
        (openLibAttempts env.dlopen ["libEGL.so.1", "libEGL.so"]).map
          NativeCall.dlopenCall) := by
  refine ⟨?_, ?_, fun gs env => glxProbe_eq_openLib gs env,
    fun es env => eglProbe_eq_openLib es env⟩
  · intro dlopen l1 n l2 hall hn
    induction l1 with
    | nil =>
      simp [openLib, openLibAttempts, hn]
    | cons a rest ih =>
      have ha : dlopen a = 0 := hall a (List.mem_cons_self a rest)
      have hrest : ∀ m ∈ rest, dlopen m = 0 :=
        fun m hm => hall m (List.mem_cons_of_mem a hm)
      have := ih hrest
      simp [openLib, openLibAttempts, ha, this.1, this.2]
  · intro dlopen l
    induction l with
    | nil => simp [openLib]
    | cons a rest ih =>
      by_cases ha : dlopen a = 0
      · simp [openLib, ha, ih]
      · simp [openLib, ha]

/-- Witness for C6: a concrete loader in which only the second candidate
opens (handle 3): the open returns handle 3 and stops after attempting
exactly the first two names. -/
theorem open_tries_candidates_in_order_witness :
    openLib (fun n => if n = "libGL.so" then 3 else 0)
      (["libGL.so.1"] ++ "libGL.so" :: ["libother.so"]) = some 3 ∧
    openLibAttempts (fun n => if n = "libGL.so" then 3 else 0)
      (["libGL.so.1"] ++ "libGL.so" :: ["libother.so"]) =
      ["libGL.so.1"] ++ ["libGL.so"] := by
  have h := open_tries_candidates_in_order.1
    (fun n => if n = "libGL.so" then 3 else 0)
    ["libGL.so.1"] "libGL.so" ["libother.so"] (by decide) (by decide)
  exact ⟨h.1, h.2⟩

/-- C7: every `XConnection` value returned by `XConnection::new` holds the
non-null native display handle `XOpenDisplay` returned: `new` returns `Ok`
only when `XOpenDisplay` returned non-null, and the stored handle is that
value. -/
theorem connection_display_nonnull (gs es : List String) (env : Env)
    (eh : XErrorHandler) (conn : XConnection)
    (h : XConnection.newResult gs es env eh = Except.ok conn) :
    conn.display ≠ 0 ∧ conn.display = env.xOpenDisplay := by
  obtain ⟨xlib, xcursor, xf86vmode, xinput2, hx, hc, hf, hi, hd, hconn⟩ :=
    new_ok_elim gs es env eh conn h
  rw [hconn]
  exact ⟨hd, rfl⟩

/-- Witness for C7: concrete successful run; the stored handle is the
non-null value `XOpenDisplay` returned. -/
theorem connection_display_nonnull_witness :
    connAllOk.display ≠ 0 ∧ connAllOk.display = envAllOk.xOpenDisplay :=
  connection_display_nonnull [] [] envAllOk none connAllOk (by rfl)

/-- The two phases a `new` run can take: mandatory failure with no
thread-init and no display call, or the full ordered trace. -/
theorem new_trace_phases (gs es : List String) (env : Env) (eh : XErrorHandler) :
    (∃ e, XConnection.newResult gs es env eh =
        Except.error (XNotSupported.LibraryOpenError e) ∧
        (XConnection.newTrace gs es env eh).count NativeCall.xInitThreads = 0 ∧
        (XConnection.newTrace gs es env eh).count NativeCall.xOpenDisplay = 0) ∨
    (∃ opt, XConnection.newTrace gs es env eh =
        [NativeCall.xlibOpenCall, NativeCall.xcursorOpenCall,
         NativeCall.xf86vmodeOpenCall, NativeCall.xinput2OpenCall,
         NativeCall.xInitThreads, NativeCall.xSetErrorHandler] ++ opt ++
        [NativeCall.xOpenDisplay] ∧
      (∀ c ∈ opt, ∃ n, c = NativeCall.dlopenCall n) ∧
      (XConnection.newTrace gs es env eh).count NativeCall.xInitThreads = 1 ∧
      ((env.xOpenDisplay = 0 ∧ XConnection.newResult gs es env eh =
          Except.error XNotSupported.XOpenDisplayFailed) ∨
        (env.xOpenDisplay ≠ 0 ∧
          ∃ conn, XConnection.newResult gs es env eh = Except.ok conn))) := by
  rcases hx : env.xlibOpenRes with ex | xlib
  · refine Or.inl ⟨ex, ?_, ?_, ?_⟩ <;>
      simp [XConnection.newResult, XConnection.newTrace, XConnection.new, hx,
        XNotSupported.fromOpenError]
  rcases hc : env.xcursorOpenRes with ex | xcursor
  · refine Or.inl ⟨ex, ?_, ?_, ?_⟩ <;>
      simp [XConnection.newResult, XConnection.newTrace, XConnection.new, hx, hc,
        XNotSupported.fromOpenError]
  rcases hf : env.xf86vmodeOpenRes with ex | xf86vmode
  · refine Or.inl ⟨ex, ?_, ?_, ?_⟩ <;>
      simp [XConnection.newResult, XConnection.newTrace, XConnection.new, hx, hc, hf,
        XNotSupported.fromOpenError]
  rcases hi : env.xinput2OpenRes with ex | xinput2
  · refine Or.inl ⟨ex, ?_, ?_, ?_⟩ <;>
      simp [XConnection.newResult, XConnection.newTrace, XConnection.new, hx, hc, hf, hi,
        XNotSupported.fromOpenError]
  have hs := new_ok_shape gs es env eh xlib xcursor xf86vmode xinput2 hx hc hf hi
  have hginit : (glxProbe gs env).2.count NativeCall.xInitThreads = 0 :=
    count_eq_zero_of_dlopen _ (glxProbe_trace_dlopen gs env) _ (by simp)
  have heinit : (eglProbe es env).2.count NativeCall.xInitThreads = 0 :=
    count_eq_zero_of_dlopen _ (eglProbe_trace_dlopen es env) _ (by simp)
  refine Or.inr ⟨(glxProbe gs env).2 ++ (eglProbe es env).2, ?_, ?_, ?_, ?_⟩
  · rw [XConnection.newTrace, hs]
    simp [List.append_assoc]
  · intro c hcmem
    rcases List.mem_append.mp hcmem with hm | hm
    · exact glxProbe_trace_dlopen gs env c hm
    · exact eglProbe_trace_dlopen es env c hm
  · rw [XConnection.newTrace, hs]
    simp only [List.count_append, hginit, heinit]
    decide
  · by_cases hd : env.xOpenDisplay = 0
    · refine Or.inl ⟨hd, ?_⟩
      rw [XConnection.newResult, hs]
      simp [hd]
    · refine Or.inr ⟨hd, ?_⟩
      refine ⟨{ xlib := xlib, xf86vmode := xf86vmode, xcursor := xcursor,
                xinput2 := xinput2, glx := (glxProbe gs env).1,
                egl := (eglProbe es env).1, display := env.xOpenDisplay }, ?_⟩
      rw [XConnection.newResult, hs]
      simp [hd]

/-- C8: `XConnection::new` follows `Start → MandatoryLoaded →
ThreadsInited → ErrorHandlerInstalled → OptionalProbed → Connected |
Failed`: either some mandatory open failed, the result is a wrapped
loader error and neither `XInitThreads` nor `XOpenDisplay` was invoked;
or the trace is exactly the four mandatory opens, then `XInitThreads`,
then `XSetErrorHandler`, then the optional dlopen probes, then
`XOpenDisplay`, with `XInitThreads` invoked exactly once and before every
display-server call, and the run fails only when the display handle is
null, else yields a connection.  In every case `XInitThreads` is invoked
at most once. -/
theorem new_state_machine (gs es : List String) (env : Env) (eh : XErrorHandler) :
    (XConnection.newTrace gs es env eh).count NativeCall.xInitThreads ≤ 1 ∧
    ((∃ e, XConnection.newResult gs es env eh =
        Except.error (XNotSupported.LibraryOpenError e) ∧
        (XConnection.newTrace gs es env eh).count NativeCall.xInitThreads = 0 ∧
        (XConnection.newTrace gs es env eh).count NativeCall.xOpenDisplay = 0) ∨
    (∃ opt, XConnection.newTrace gs es env eh =
        [NativeCall.xlibOpenCall, NativeCall.xcursorOpenCall,
         NativeCall.xf86vmodeOpenCall, NativeCall.xinput2OpenCall,
         NativeCall.xInitThreads, NativeCall.xSetErrorHandler] ++ opt ++
        [NativeCall.xOpenDisplay] ∧
      (∀ c ∈ opt, ∃ n, c = NativeCall.dlopenCall n) ∧
      (XConnection.newTrace gs es env eh).count NativeCall.xInitThreads = 1 ∧
      ((env.xOpenDisplay = 0 ∧ XConnection.newResult gs es env eh =
          Except.error XNotSupported.XOpenDisplayFailed) ∨
        (env.xOpenDisplay ≠ 0 ∧
          ∃ conn, XConnection.newResult gs es env eh = Except.ok conn)))) := by
  have main := new_trace_phases gs es env eh
  refine ⟨?_, main⟩
  rcases main with ⟨e, _, hzero, _⟩ | ⟨opt, _, _, hone, _⟩
  · rw [hzero]
    exact Nat.zero_le 1
  · rw [hone]

/-- Witness for C8: at a concrete environment, `XInitThreads` is invoked
at most once. -/
theorem new_state_machine_witness :
    (XConnection.newTrace [] [] envAllOk none).count NativeCall.xInitThreads ≤ 1 :=
  (new_state_machine [] [] envAllOk none).1

/-- C9: `XNotSupported` has exactly the two variants `LibraryOpenError`
(carrying the loader error) and `XOpenDisplayFailed` (carrying nothing),
the `From` conversion wraps every loader error into `LibraryOpenError`,
and `cause()` returns the underlying loader error for `LibraryOpenError`
and `None` for `XOpenDisplayFailed`. -/
theorem xnotsupported_taxonomy :
    (∀ x : XNotSupported, (∃ e, x = XNotSupported.LibraryOpenError e) ∨
      x = XNotSupported.XOpenDisplayFailed) ∧
    (∀ e, XNotSupported.LibraryOpenError e ≠ XNotSupported.XOpenDisplayFailed) ∧
    (∀ e, XNotSupported.fromOpenError e = XNotSupported.LibraryOpenError e) ∧
    (∀ e, XNotSupported.cause (XNotSupported.LibraryOpenError e) = some e) ∧
    XNotSupported.cause XNotSupported.XOpenDisplayFailed = none := by
  refine ⟨?_, ?_, fun e => rfl, fun e => rfl, rfl⟩
  · intro x
    cases x with
    | LibraryOpenError e => exact Or.inl ⟨e, rfl⟩
    | XOpenDisplayFailed => exact Or.inr rfl
  · exact fun e h => XNotSupported.noConfusion h

/-- Witness for C9: the conversion and `cause` at the concrete loader
error `NotFound`. -/
theorem xnotsupported_taxonomy_witness :
    XNotSupported.fromOpenError OpenError.NotFound =
      XNotSupported.LibraryOpenError OpenError.NotFound ∧
    XNotSupported.cause (XNotSupported.LibraryOpenError OpenError.NotFound) =
      some OpenError.NotFound ∧
    XNotSupported.cause XNotSupported.XOpenDisplayFailed = none :=
  ⟨xnotsupported_taxonomy.2.2.1 OpenError.NotFound,
   xnotsupported_taxonomy.2.2.2.1 OpenError.NotFound,
   xnotsupported_taxonomy.2.2.2.2⟩

/-- C10: `XConnection::new` invokes `XInitThreads` without inspecting its
return value: the result and trace of `new` are identical for every value
the call returns, so a thread-initialization failure can never cause an
error or alter any subsequent step; the call is still made (exactly once)
whenever the mandatory bundles load. -/
theorem xinitthreads_return_ignored (gs es : List String) (env : Env)
    (eh : XErrorHandler) (r : Int) :
    XConnection.new gs es { env with xInitThreadsRet := r } eh =
      XConnection.new gs es env eh ∧
    (∀ (xlib : Xlib) (xcursor : Xcursor) (xf86vmode : Xf86vmode) (xinput2 : XInput2),
      env.xlibOpenRes = Except.ok xlib → env.xcursorOpenRes = Except.ok xcursor →
      env.xf86vmodeOpenRes = Except.ok xf86vmode →
      env.xinput2OpenRes = Except.ok xinput2 →
      (XConnection.newTrace gs es env eh).count NativeCall.xInitThreads = 1) := by
  constructor
  · rfl
  · intro xlib xcursor xf86vmode xinput2 hx hc hf hi
    have hs := new_ok_shape gs es env eh xlib xcursor xf86vmode xinput2 hx hc hf hi
    have hginit : (glxProbe gs env).2.count NativeCall.xInitThreads = 0 :=
      count_eq_zero_of_dlopen _ (glxProbe_trace_dlopen gs env) _ (by simp)
    have heinit : (eglProbe es env).2.count NativeCall.xInitThreads = 0 :=
      count_eq_zero_of_dlopen _ (eglProbe_trace_dlopen es env) _ (by simp)
    rw [XConnection.newTrace, hs]
    simp only [List.count_append, hginit, heinit]
    decide

/-- Witness for C10: at a concrete environment the run is unchanged by an
arbitrary `XInitThreads` return value and the call happens exactly once. -/
theorem xinitthreads_return_ignored_witness :
    XConnection.new [] [] { envAllOk with xInitThreadsRet := -5 } none =
      XConnection.new [] [] envAllOk none ∧
    (XConnection.newTrace [] [] envAllOk none).count NativeCall.xInitThreads = 1 :=
  ⟨(xinitthreads_return_ignored [] [] envAllOk none (-5)).1,
   (xinitthreads_return_ignored [] [] envAllOk none (-5)).2
     ⟨1⟩ ⟨2⟩ ⟨3⟩ ⟨4⟩ rfl rfl rfl rfl⟩

end Glutin
